import Mathlib

set_option maxHeartbeats 1000000

/-!
Shallow embedding of the goreleaser fork's release-packaging pipeline:
the S3 publish adapter (internal/pipe/s3/s3.go), the Alpine packaging
workflow (internal/pipe/alpine/alpine.go), and models of the external
collaborators they consume (artifact registry filters, the bounded task
group, the template resolver, the pipe skip signal, Go's filepath helpers
and the process/filesystem world, the latter given as oracles so that the
embedded control flow is the source's).
Go errors are embedded as their message strings.
-/

/-- Artifact types. The artifact package itself is not part of the sampled
source; the constructors are the ones its callers reference
(artifact.Binary, artifact.UploadableBinary, ... in alpine.go and s3.go),
matching the spec's closed set: Binary is the spec's generic-binary,
UploadableBinary its uploadable-binary, APK its native-package,
APKIndex its native-package-index. -/
inductive ArtifactType where
  | UploadableArchive
  | UploadableBinary
  | Binary
  | LinuxPackage
  | Checksum
  | Signature
  | APK
  | APKIndex
deriving DecidableEq, Repr

/-- One artifact record: fields Type, Name, Path, Goos, Goarch, Goarm,
RepoDir, Extra of the Go struct. Extra (an open string-keyed map, here with
the single key used, AlpineArch) is embedded as an association list. -/
structure Artifact where
  type : ArtifactType
  name : String
  path : String
  goos : String
  goarch : String
  goarm : String
  repoDir : String
  extra : List (String × String)
deriving DecidableEq, Repr

/-- Modelled from the spec: primitive registry predicate ByType of the
artifact package (artifacts of the given type). -/
def ByType (t : ArtifactType) (a : Artifact) : Bool := a.type == t

/-- Modelled from the spec: primitive registry predicate ByGoos (artifacts
whose target OS equals the given string). -/
def ByGoos (s : String) (a : Artifact) : Bool := a.goos == s

/-- Modelled from the spec: primitive registry predicate ByGoarm (artifacts
whose ARM-variant qualifier equals the given string). -/
def ByGoarm (s : String) (a : Artifact) : Bool := a.goarm == s

/-- Modelled from the spec: the And combinator of registry predicates. -/
def andFilter (fs : List (Artifact → Bool)) (a : Artifact) : Bool :=
  fs.all (fun f => f a)

/-- Modelled from the spec: the Or combinator of registry predicates
(false on the empty list, as in the artifact package's variadic Or). -/
def orFilter (fs : List (Artifact → Bool)) (a : Artifact) : Bool :=
  fs.any (fun f => f a)

/-- Models Go's path/filepath.Join on slash-separated paths: the non-empty
elements joined with the separator.  (filepath.Join additionally runs
Clean on the result; Clean is the identity on the already-clean inputs
this code joins.) -/
def goJoin (elems : List String) : String :=
  String.intercalate ("/") (elems.filter (fun s => s != ""))

/-- Models Go's path/filepath.Base on slash-separated paths: the last
non-empty element, "." for the empty path, "/" when the path is only
separators. -/
def filepathBase (p : String) : String :=
  if p = "" then "." else
  match ((p.splitOn ("/")).filter (fun s => s != "")).reverse with
  | [] => "/"
  | s :: _ => s

/-- Models Go's path/filepath.Dir on slash-separated paths: everything but
the last element, "." when there is no directory part, "/" for a
root-level path. -/
def filepathDir (p : String) : String :=
  let segs := (p.splitOn ("/")).dropLast
  if segs.isEmpty then "." else
  let d := String.intercalate ("/") segs
  if d = "" then "/" else d

/-- The architecture translation switch of alpine.go's Run: the Go switch
on the artifact's Goarch rewriting 386 and amd64 to the abuild names. -/
def translateArch (goarch : String) : String :=
  if goarch = "386" then "x86"
  else if goarch = "amd64" then "x86_64"
  else goarch

/-- The binary-selection predicate of alpine.go's Run:
artifact.And(ByGoos("linux"), ByGoarm(""), ByType(artifact.Binary)). -/
def alpineFilter : Artifact → Bool :=
  andFilter [ByGoos ("linux"), ByGoarm (""), ByType ArtifactType.Binary]

/-- Modelled from the spec: destination strings consumed by the Template
Resolver (an external collaborator) are embedded as segment lists — a
literal piece, the release-version placeholder, or an invalid placeholder
that makes resolution fail. -/
inductive TmplSeg where
  | lit (s : String)
  | version
  | invalid (msg : String)
deriving DecidableEq, Repr

/-- Modelled from the spec: the Template Resolver's Apply — substitutes the
version placeholder from the release context, concatenates literals, and
fails on an invalid placeholder. -/
def tmplApply (version : String) : List TmplSeg → Except String String
  | [] => Except.ok ""
  | TmplSeg.lit s :: rest => (tmplApply version rest).map (fun t => s ++ t)
  | TmplSeg.version :: rest => (tmplApply version rest).map (fun t => version ++ t)
  | TmplSeg.invalid m :: _ => Except.error m

/-- Modelled from the spec: the Bounded Task Group (internal/semerrgroup is
not part of the sampled source).  A scheduled unit is embedded by its
outcome (none = success, some e = failure); the concurrency ceiling bounds
parallelism only, so the sequentialised model records it without it
affecting which units run or which failures are collected. -/
structure TaskGroup (ε : Type) where
  limit : Int
  units : List (Option ε)
deriving DecidableEq, Repr

/-- Modelled from the spec: semerrgroup.New — a fresh group with the given
concurrency ceiling and no scheduled units. -/
def TaskGroup.new (ε : Type) (limit : Int) : TaskGroup ε :=
  { limit := limit, units := [] }

/-- Modelled from the spec: Go schedules one unit; every scheduled unit
runs to completion regardless of sibling failures, so its outcome is
appended unconditionally. -/
def TaskGroup.go {ε : Type} (g : TaskGroup ε) (unit : Option ε) : TaskGroup ε :=
  { g with units := g.units ++ [unit] }

/-- Modelled from the spec: Wait — nil when no unit failed, otherwise a
single combined error aggregating every failure in scheduling order. -/
def TaskGroup.wait {ε : Type} (g : TaskGroup ε) : Option (List ε) :=
  match g.units.filterMap id with
  | [] => none
  | es => some es

/-- Modelled from the spec: the outcome a pipe stage returns to the
orchestrator — nil (ok), the distinguishable not-configured skip signal of
pipe.Skip (a no-op success, not an error), or an error. -/
inductive PipeResult (ε : Type) where
  | ok
  | skip (msg : String)
  | err (e : ε)
deriving DecidableEq, Repr

/-- One S3 destination configuration (config.S3): the fields s3.go reads.
Bucket and Folder are destination templates (resolved through the
Template Resolver), the rest plain strings. -/
structure S3Config where
  bucket : List TmplSeg
  region : String
  folder : List TmplSeg
  profile : String
  endpoint : String
  acl : String
  artifacts : List String
deriving DecidableEq, Repr

/-- The artifactTypes map of s3.go: configured artifact-kind name to
artifact type, in the source's entries. -/
def artifactTypes : List (String × ArtifactType) :=
  [("archive", ArtifactType.UploadableArchive),
   ("binary", ArtifactType.UploadableBinary),
   ("nfpm", ArtifactType.LinuxPackage),
   ("checksum", ArtifactType.Checksum),
   ("signature", ArtifactType.Signature),
   ("apk", ArtifactType.APK),
   ("apkindex", ArtifactType.APKIndex)]

/-- Lookup in the artifactTypes map (the `artifactTypes[artTypeStr]`
access of s3.go's upload). -/
def lookupArtifactType (s : String) : Option ArtifactType :=
  (artifactTypes.find? (fun p => p.1 == s)).map Prod.snd

/-- The filter-building loop of s3.go's upload: one ByType filter per
configured kind name, in order; the first unrecognized name aborts with
the "unknown artifact type" error. -/
def buildFilters : List String → Except String (List (Artifact → Bool))
  | [] => Except.ok []
  | s :: rest =>
    match lookupArtifactType s with
    | some t =>
      match buildFilters rest with
      | Except.ok fs => Except.ok (ByType t :: fs)
      | Except.error e => Except.error e
    | none => Except.error ("unknown artifact type: " ++ s)

/-- An error returned by s3.go's upload: either a single error surfaced
before the fan-out (template resolution or unknown artifact type), or the
task group's aggregate of unit failure messages. -/
inductive S3Err where
  | single (msg : String)
  | multi (msgs : List String)
deriving DecidableEq, Repr

/-- One PutObjectWithContext call as performed by an upload unit: target
bucket, object key, access-control setting, and the artifact whose bytes
are carried. -/
structure UploadCall where
  bucket : String
  key : String
  acl : String
  art : Artifact
deriving DecidableEq, Repr

/-- Oracle for the world s3.go's upload units touch: opening an artifact's
local file and the remote PutObject call (keyed by bucket and key), each
returning none on success or the Go error's message. -/
structure S3World where
  openFile : String → Option String
  putObject : String → String → Option String

/-- One upload unit of s3.go (the closure passed to g.Go): opens the
artifact's file (failure reported, no upload made), computes the remote
key as filepath.Join(folder, artifact.RepoDir, artifact.Name), and
performs the blocking PutObject call.  Returns the call made (if any) and
the unit's outcome. -/
def uploadUnit (w : S3World) (bucket folder acl : String) (a : Artifact) :
    Option UploadCall × Option String :=
  match w.openFile a.path with
  | some e => (none, some e)
  | none =>
    let key := goJoin [folder, a.repoDir, a.name]
    (some { bucket := bucket, key := key, acl := acl, art := a },
     w.putObject bucket key)

/-- s3.go's upload for one destination: resolve the bucket and folder
templates (either failure aborts before any upload), build the type
filters (an unknown kind name aborts before any upload), then fan the
matching artifacts out on a task group with the configured parallelism
ceiling and return its combined error.  Also returns the PutObject calls
performed. -/
def uploadS3 (w : S3World) (parallelism : Int) (version : String)
    (registry : List Artifact) (conf : S3Config) :
    Option S3Err × List UploadCall :=
  match tmplApply version conf.bucket with
  | Except.error e => (some (S3Err.single e), [])
  | Except.ok bucket =>
  match tmplApply version conf.folder with
  | Except.error e => (some (S3Err.single e), [])
  | Except.ok folder =>
  match buildFilters conf.artifacts with
  | Except.error e => (some (S3Err.single e), [])
  | Except.ok filters =>
  let units := (registry.filter (orFilter filters)).map
    (uploadUnit w bucket folder conf.acl)
  let g := (units.map Prod.snd).foldl TaskGroup.go (TaskGroup.new String parallelism)
  (g.wait.map S3Err.multi, units.filterMap Prod.fst)

/-- s3.go's Publish: the not-configured skip when no S3 section exists,
the CheckPipe skip (an oracle for the user's pipe-skip flags; the pipe
package treats its error as a skip signal), then one task-group unit per
destination running upload, with Wait's combined error as the result. -/
def s3Publish (w : S3World) (parallelism : Int) (version : String)
    (registry : List Artifact) (configs : List S3Config)
    (checkPipe : Option String) :
    PipeResult (List S3Err) × List UploadCall :=
  if configs.isEmpty then (PipeResult.skip ("s3 section is not configured"), [])
  else
    match checkPipe with
    | some m => (PipeResult.skip m, [])
    | none =>
      let results := configs.map (uploadS3 w parallelism version registry)
      let g := (results.map Prod.fst).foldl TaskGroup.go (TaskGroup.new S3Err parallelism)
      (match g.wait with
       | none => PipeResult.ok
       | some es => PipeResult.err es,
       results.flatMap Prod.snd)

/-- One Alpine package spec (config.Alpine): the fields alpine.go reads.
Rel is the numeric release revision. -/
structure AlpineConfig where
  name : String
  root : String
  branch : String
  repository : String
  rel : Nat
  description : String
  url : String
  license : String
  maintainer : String
  contributor : String
  checkFn : String
deriving DecidableEq, Repr

/-- An external command spawned by alpine.go's Run (abuild, abuild-sign):
tool name, arguments, working directory and extra environment entries. -/
structure SpawnedCmd where
  tool : String
  args : List String
  dir : String
  env : List String
deriving DecidableEq, Repr

/-- Oracle for the world alpine.go's Run touches.  Each filesystem
operation is keyed by the path the source passes it and answers none on
success or the Go error's message; the two external tools are keyed by
the CBUILD architecture (abuild) and the absolute index path (abuild-sign)
and answer none on success or the pair (error message, combined output).
render oracles generateApkBuildFile, whose template parse/execute is the
external templating engine; os.Chmod's result is not checked by the
source and is omitted. -/
structure AlpineWorld where
  getwd : Except String String
  mkdirAll : String → Option String
  render : AlpineConfig → Except String Unit
  writeFile : String → Option String
  lookPathAbuild : Option String
  mkdir : String → Option String
  openFile : String → Option String
  createFile : String → Option String
  copyFile : String → Option String
  abuild : String → Option (String × String)
  abuildSign : String → Option (String × String)

/-- The apkBuildFileName constant of alpine.go. -/
def apkBuildFileName : String := "APKBUILD"

/-- The apkIndexFileName constant of alpine.go. -/
def apkIndexFileName : String := "APKINDEX.tar.gz"

/-- The abuildOutputDir constant of alpine.go. -/
def abuildOutputDir : String := "dist"

/-- The ErrNoAlpineKeys error of alpine.go. -/
def errNoAlpineKeys : String :=
  "environment variables PACKAGER_PUBKEY and PACKAGER_PRIVKEY need to be set"

/-- The per-spec values alpine.go's Run computes before its artifact loop,
bundled: working directory, localPath, its absolute form, the joined
repository path, the signing key directory, and the spec's name, revision
and release version used for the apk file name. -/
structure ConfigEnv where
  pwd : String
  localPath : String
  localPathAbs : String
  repoPath : String
  pubKeyName : String
  cfgName : String
  rel : Nat
  version : String
deriving DecidableEq, Repr

/-- The repository subpath join of alpine.go's Run:
filepath.Join(alpine.Root, alpine.Branch, alpine.Repository). -/
def alpineRepoPath (cfg : AlpineConfig) : String :=
  goJoin [cfg.root, cfg.branch, cfg.repository]

/-- The per-architecture abuild output directory of alpine.go's Run:
filepath.Join(localPath, abuildOutputDir, arch). -/
def abuildOutPath (env : ConfigEnv) (arch : String) : String :=
  goJoin [env.localPath, abuildOutputDir, arch]

/-- The generated index path of alpine.go's Run:
filepath.Join(abuildOutputPath, apkIndexFileName). -/
def apkIndexPathOf (env : ConfigEnv) (arch : String) : String :=
  goJoin [abuildOutPath env arch, apkIndexFileName]

/-- The absolute index path passed to abuild-sign:
filepath.Join(pwd, apkIndexPath). -/
def apkIndexAbsOf (env : ConfigEnv) (arch : String) : String :=
  goJoin [env.pwd, apkIndexPathOf env arch]

/-- The apk file name of alpine.go's Run:
fmt.Sprintf of name, version and revision. -/
def apkFileNameOf (env : ConfigEnv) : String :=
  env.cfgName ++ "-" ++ env.version ++ "-r" ++ toString env.rel ++ ".apk"

/-- The native-package artifact alpine.go's Run registers after abuild
succeeds for the binary artifact b: type APK, the generated apk name and
path, OS linux, the source binary's untranslated Goarch, empty Goarm, the
architecture-suffixed repository path, and the AlpineArch extra entry
holding the translated architecture name. -/
def apkArtifactOf (env : ConfigEnv) (b : Artifact) : Artifact :=
  let arch := translateArch b.goarch
  { type := ArtifactType.APK
    name := apkFileNameOf env
    path := goJoin [abuildOutPath env arch, apkFileNameOf env]
    goos := "linux"
    goarch := b.goarch
    goarm := ""
    repoDir := goJoin [env.repoPath, arch]
    extra := [("AlpineArch", arch)] }

/-- The native-package-index artifact alpine.go's Run registers after
abuild-sign succeeds: type APKIndex, the index name and (relative) path,
and the same platform, repository-path and extra fields as the package. -/
def apkIndexArtifactOf (env : ConfigEnv) (b : Artifact) : Artifact :=
  let arch := translateArch b.goarch
  { type := ArtifactType.APKIndex
    name := apkIndexFileName
    path := apkIndexPathOf env arch
    goos := "linux"
    goarch := b.goarch
    goarm := ""
    repoDir := goJoin [env.repoPath, arch]
    extra := [("AlpineArch", arch)] }

/-- The abuild invocation of alpine.go's Run: abuild -P localPathAbs -r,
run in localPath with CBUILD set to the translated architecture. -/
def buildCmdOf (env : ConfigEnv) (b : Artifact) : SpawnedCmd :=
  { tool := "abuild"
    args := ["-P", env.localPathAbs, "-r"]
    dir := env.localPath
    env := ["CBUILD=" ++ translateArch b.goarch] }

/-- The abuild-sign invocation of alpine.go's Run: abuild-sign on the
absolute index path with -p and the key directory, run in localPath. -/
def signCmdOf (env : ConfigEnv) (b : Artifact) : SpawnedCmd :=
  { tool := "abuild-sign"
    args := [apkIndexAbsOf env (translateArch b.goarch), "-p", env.pubKeyName]
    dir := env.localPath
    env := [] }

/-- The body of alpine.go's Run inner loop for one selected binary
artifact: translate the architecture, make the architecture directory,
open the binary, create and fill the destination copy (the os.Chmod
result is unchecked in the source), run abuild (its failure formatted as
"err:\noutput"), register the APK artifact, run abuild-sign, and register
the APKIndex artifact.  Returns the error (none on success), the
artifacts registered, and the commands spawned. -/
def processArtifact (w : AlpineWorld) (env : ConfigEnv) (b : Artifact) :
    Option String × List Artifact × List SpawnedCmd :=
  let arch := translateArch b.goarch
  let binDir := goJoin [env.localPath, arch]
  match w.mkdir binDir with
  | some e => (some e, [], [])
  | none =>
  match w.openFile b.path with
  | some e => (some e, [], [])
  | none =>
  let destPath := goJoin [binDir, filepathBase b.path]
  match w.createFile destPath with
  | some e => (some e, [], [])
  | none =>
  match w.copyFile destPath with
  | some e => (some e, [], [])
  | none =>
  match w.abuild arch with
  | some (e, out) => (some (e ++ ":\n" ++ out), [], [buildCmdOf env b])
  | none =>
  match w.abuildSign (apkIndexAbsOf env arch) with
  | some (e, out) =>
    (some (e ++ ":\n" ++ out), [apkArtifactOf env b],
     [buildCmdOf env b, signCmdOf env b])
  | none =>
    (none, [apkArtifactOf env b, apkIndexArtifactOf env b],
     [buildCmdOf env b, signCmdOf env b])

/-- alpine.go's Run inner loop over the selected binary artifacts:
early-returns on the first failing artifact, accumulating the artifacts
registered and commands spawned up to and including it. -/
def processArtifacts (w : AlpineWorld) (env : ConfigEnv) :
    List Artifact → Option String × List Artifact × List SpawnedCmd
  | [] => (none, [], [])
  | b :: bs =>
    match processArtifact w env b with
    | (some e, arts, cmds) => (some e, arts, cmds)
    | (none, arts, cmds) =>
      let rest := processArtifacts w env bs
      (rest.1, arts ++ rest.2.1, cmds ++ rest.2.2)

/-- What alpine.go's Run produces besides its return value: the artifacts
registered into the registry, the external commands spawned, and the
APKBUILD write attempts with their (discarded) outcomes. -/
structure AlpineTrace where
  registered : List Artifact
  spawned : List SpawnedCmd
  descriptorWrites : List (String × Option String)
deriving DecidableEq, Repr

/-- The empty trace. -/
def emptyTrace : AlpineTrace :=
  { registered := [], spawned := [], descriptorWrites := [] }

/-- Trace concatenation. -/
def AlpineTrace.append (t u : AlpineTrace) : AlpineTrace :=
  { registered := t.registered ++ u.registered
    spawned := t.spawned ++ u.spawned
    descriptorWrites := t.descriptorWrites ++ u.descriptorWrites }

/-- The body of alpine.go's Run outer loop for one configured spec:
filter the registry for eligible binaries, get the working directory,
make the per-spec directory, render the APKBUILD (generateApkBuildFile),
write it — the source assigns this write's error to err but overwrites
err with the following exec.LookPath result before ever checking it, so
the outcome is recorded in the trace and does not affect control flow —
look up abuild on PATH, then run the inner artifact loop. -/
def processConfig (w : AlpineWorld) (dist version pubKeyPath : String)
    (registry : List Artifact) (cfg : AlpineConfig) :
    Option String × AlpineTrace :=
  let arts := registry.filter alpineFilter
  match w.getwd with
  | Except.error e => (some e, emptyTrace)
  | Except.ok pwd =>
  let localPath := goJoin [dist, "alpine-" ++ cfg.name]
  let localPathAbs := goJoin [pwd, localPath]
  match w.mkdirAll localPath with
  | some e => (some e, emptyTrace)
  | none =>
  match w.render cfg with
  | Except.error e => (some e, emptyTrace)
  | Except.ok _ =>
  let apkBuildPath := goJoin [localPath, apkBuildFileName]
  let writeOutcome := w.writeFile apkBuildPath
  let tr0 : AlpineTrace :=
    { registered := [], spawned := [], descriptorWrites := [(apkBuildPath, writeOutcome)] }
  match w.lookPathAbuild with
  | some e => (some e, tr0)
  | none =>
  let env : ConfigEnv :=
    { pwd := pwd
      localPath := localPath
      localPathAbs := localPathAbs
      repoPath := alpineRepoPath cfg
      pubKeyName := filepathDir pubKeyPath
      cfgName := cfg.name
      rel := cfg.rel
      version := version }
  let r := processArtifacts w env arts
  (r.1, { registered := r.2.1, spawned := r.2.2,
          descriptorWrites := [(apkBuildPath, writeOutcome)] })

/-- alpine.go's Run outer loop over the configured specs: early-returns on
the first failing spec; each spec's filter sees the registry as grown by
the previous specs' registrations. -/
def runAlpineConfigs (w : AlpineWorld) (dist version pubKeyPath : String)
    (registry : List Artifact) :
    List AlpineConfig → Option String × AlpineTrace
  | [] => (none, emptyTrace)
  | cfg :: cfgs =>
    match processConfig w dist version pubKeyPath registry cfg with
    | (some e, tr) => (some e, tr)
    | (none, tr) =>
      let rest := runAlpineConfigs w dist version pubKeyPath
        (registry ++ tr.registered) cfgs
      (rest.1, tr.append rest.2)

/-- The inputs alpine.go's Run reads from the pipeline context: the
configured Alpine specs, the artifact registry, the dist directory and
the release version. -/
structure AlpineCtx where
  configs : List AlpineConfig
  registry : List Artifact
  dist : String
  version : String
deriving Repr

/-- alpine.go's Run: the not-configured skip when no Alpine section
exists, otherwise the loop over specs, with nil (ok) when every spec
succeeded. -/
def runAlpine (w : AlpineWorld) (pubKeyPath : String) (ctx : AlpineCtx) :
    PipeResult String × AlpineTrace :=
  if ctx.configs.isEmpty then
    (PipeResult.skip ("alpine section is not configured"), emptyTrace)
  else
    match runAlpineConfigs w ctx.dist ctx.version pubKeyPath ctx.registry ctx.configs with
    | (some e, tr) => (PipeResult.err e, tr)
    | (none, tr) => (PipeResult.ok, tr)

/-- The per-spec defaulting of alpine.go's Default: empty Root, Branch and
Repository fall back to alpine, edge and main. -/
def applyAlpineDefaults (c : AlpineConfig) : AlpineConfig :=
  let c1 := if c.root = "" then { c with root := "alpine" } else c
  let c2 := if c1.branch = "" then { c1 with branch := "edge" } else c1
  if c2.repository = "" then { c2 with repository := "main" } else c2

/-- alpine.go's Default: defaults each configured spec in turn and, inside
the same loop, returns ErrNoAlpineKeys as soon as either key path from the
environment is empty (so the error is surfaced once, and only when at
least one spec is configured).  Returns the error (if any) and the
configs as mutated up to that point. -/
def defaultAlpine (pubKeyPath privKeyPath : String) :
    List AlpineConfig → Option String × List AlpineConfig
  | [] => (none, [])
  | c :: cs =>
    let c1 := applyAlpineDefaults c
    if pubKeyPath = "" || privKeyPath = "" then
      (some errNoAlpineKeys, c1 :: cs)
    else
      let rest := defaultAlpine pubKeyPath privKeyPath cs
      (rest.1, c1 :: rest.2)

/-- Modelled from the spec: the stage orchestrator (an external
collaborator) runs the Default step before Run and aborts the stage on a
fatal configuration error, so Run — the only place external tools are
spawned — is not reached when Default fails. -/
def alpineStage (w : AlpineWorld) (pubKeyPath privKeyPath : String)
    (ctx : AlpineCtx) : PipeResult String × AlpineTrace :=
  match defaultAlpine pubKeyPath privKeyPath ctx.configs with
  | (some e, _) => (PipeResult.err e, emptyTrace)
  | (none, cfgs) =>
    runAlpine w pubKeyPath { ctx with configs := cfgs }

/-- A world in which every external operation succeeds (getwd answers
/work). -/
def wAllOk : AlpineWorld :=
  { getwd := Except.ok ("/work")
    mkdirAll := fun _ => none
    render := fun _ => Except.ok ()
    writeFile := fun _ => none
    lookPathAbuild := none
    mkdir := fun _ => none
    openFile := fun _ => none
    createFile := fun _ => none
    copyFile := fun _ => none
    abuild := fun _ => none
    abuildSign := fun _ => none }

/-- A sample Alpine spec named foo with the defaulted root, branch and
repository. -/
def exCfg : AlpineConfig :=
  { name := "foo", root := "alpine", branch := "edge", repository := "main"
    rel := 0, description := "", url := "", license := ""
    maintainer := "", contributor := "", checkFn := "" }

/-- A sample eligible binary artifact (linux, amd64, no ARM variant). -/
def exBin : Artifact :=
  { type := ArtifactType.Binary, name := "app", path := goJoin ["dist", "app"]
    goos := "linux", goarch := "amd64", goarm := "", repoDir := "", extra := [] }

/-- A sample pipeline context with one spec and one eligible binary. -/
def exCtx : AlpineCtx :=
  { configs := [exCfg], registry := [exBin], dist := "dist", version := "1.0.0" }

/-- The world wAllOk except that the abuild-sign tool fails. -/
def wSignFail : AlpineWorld :=
  { wAllOk with abuildSign := fun _ => some (("exit status 1"), ("signing failed")) }

/-- The world wAllOk except that writing the APKBUILD file fails. -/
def wWriteFail : AlpineWorld :=
  { wAllOk with writeFile := fun _ => some (("read-only file system")) }

/-- The world wAllOk except that rendering the APKBUILD template fails. -/
def wRenderFail : AlpineWorld :=
  { wAllOk with render := fun _ => Except.error ("template: parse error") }

/-- The per-spec environment Run computes for exCfg in wAllOk. -/
def exEnv : ConfigEnv :=
  { pwd := "/work"
    localPath := goJoin ["dist", "alpine-foo"]
    localPathAbs := goJoin ["/work", "dist", "alpine-foo"]
    repoPath := alpineRepoPath exCfg
    pubKeyName := filepathDir ("keys/pkg.pub")
    cfgName := "foo", rel := 0, version := "1.0.0" }

/-- The native-package artifact the wAllOk run of exCtx registers. -/
def exApkOut : Artifact := apkArtifactOf exEnv exBin

/-- An uploadable-binary artifact for linux/amd64 with no ARM variant:
eligible per the claimed selection rule, but not of kind artifact.Binary. -/
def exUB : Artifact :=
  { type := ArtifactType.UploadableBinary, name := "ub", path := goJoin ["dist", "ub"]
    goos := "linux", goarch := "amd64", goarm := "", repoDir := "", extra := [] }

/-- A second eligible generic binary, for arm64, to tell the processed
architectures apart. -/
def exBin2 : Artifact :=
  { type := ArtifactType.Binary, name := "app2", path := goJoin ["dist", "app2"]
    goos := "linux", goarch := "arm64", goarm := "", repoDir := "", extra := [] }

/-- A context whose registry holds the uploadable binary and the arm64
generic binary. -/
def ctxC5 : AlpineCtx :=
  { configs := [exCfg], registry := [exUB, exBin2], dist := "dist", version := "1.0.0" }

/-- An S3 world in which every open and PutObject succeeds. -/
def exS3World : S3World :=
  { openFile := fun _ => none, putObject := fun _ _ => none }

/-- An S3 destination: literal bucket, folder template releases/ followed
by the version placeholder, kind filter binary. -/
def confRel : S3Config :=
  { bucket := [TmplSeg.lit ("bkt")], region := "us-east-1"
    folder := [TmplSeg.lit ("releases/"), TmplSeg.version]
    profile := "", endpoint := "", acl := "private", artifacts := ["binary"] }

/-- The destination confRel with the unrecognized kind name deb. -/
def confDeb : S3Config := { confRel with artifacts := ["deb"] }

/-- An uploadable binary named app_linux_amd64 with empty repo subpath. -/
def exApp : Artifact :=
  { type := ArtifactType.UploadableBinary, name := "app_linux_amd64"
    path := goJoin ["dist", "app_linux_amd64"]
    goos := "linux", goarch := "amd64", goarm := "", repoDir := "", extra := [] }

/-- The upload call the confRel destination performs for exApp. -/
def exCallC8 : UploadCall :=
  { bucket := "bkt", key := "releases/1.2.3/app_linux_amd64"
    acl := "private", art := exApp }

/-- Five scheduled units of which the second and the fourth fail. -/
def rs5 : List (Option String) :=
  [none, some ("unit 2 failed"), none, some ("unit 4 failed"), none]

theorem taskGroup_foldl_units (ε : Type) (rs : List (Option ε)) :
    ∀ g : TaskGroup ε, (rs.foldl TaskGroup.go g).units = g.units ++ rs := by
  induction rs with
  | nil => intro g; simp
  | cons r rs ih =>
    intro g
    simp only [List.foldl_cons]
    rw [ih]
    simp [TaskGroup.go]

theorem taskGroup_go_units (ε : Type) (k : Int) (rs : List (Option ε)) :
    (rs.foldl TaskGroup.go (TaskGroup.new ε k)).units = rs := by
  rw [taskGroup_foldl_units]
  simp [TaskGroup.new]

theorem taskGroup_wait_none_iff (ε : Type) (g : TaskGroup ε) :
    g.wait = none ↔ g.units.filterMap id = [] := by
  rw [TaskGroup.wait]
  cases h : g.units.filterMap id with
  | nil => simp
  | cons e es => simp

theorem taskGroup_wait_some (ε : Type) (g : TaskGroup ε)
    (h : g.units.filterMap id ≠ []) : g.wait = some (g.units.filterMap id) := by
  rw [TaskGroup.wait]
  cases hf : g.units.filterMap id with
  | nil => exact absurd hf h
  | cons e es => simp

/-- C1: for every bounded task group fan-out (in particular the
per-artifact upload fan-out of Publish), every scheduled unit's outcome
is retained regardless of sibling failures (no unit is abandoned when
another fails); Wait returns nil when no unit failed, and otherwise a
single combined error aggregating all m failures, not only the first;
and the upload fan-out of s3.go's upload is exactly such a group, with
one unit per matching artifact. -/
theorem C1_wait_reports_all_failures :
    (∀ (k : Int) (rs : List (Option String)),
        (rs.foldl TaskGroup.go (TaskGroup.new String k)).units = rs) ∧
    (∀ (k : Int) (rs : List (Option String)),
        (rs.foldl TaskGroup.go (TaskGroup.new String k)).wait = none ↔
          rs.filterMap id = []) ∧
    (∀ (k : Int) (rs : List (Option String)),
        rs.filterMap id ≠ [] →
        (rs.foldl TaskGroup.go (TaskGroup.new String k)).wait =
          some (rs.filterMap id)) ∧
    (∀ (w : S3World) (p : Int) (v : String) (reg : List Artifact)
        (conf : S3Config) (bucket folder : String)
        (filters : List (Artifact → Bool)),
        tmplApply v conf.bucket = Except.ok bucket →
        tmplApply v conf.folder = Except.ok folder →
        buildFilters conf.artifacts = Except.ok filters →
        ∃ g : TaskGroup String,
          (uploadS3 w p v reg conf).1 = g.wait.map S3Err.multi ∧
          g.units.length = (reg.filter (orFilter filters)).length ∧
          (g.wait = none ↔ g.units.filterMap id = []) ∧
          (g.units.filterMap id ≠ [] → g.wait = some (g.units.filterMap id))) := by
  refine ⟨fun k rs => taskGroup_go_units String k rs, ?_, ?_, ?_⟩
  · intro k rs
    rw [taskGroup_wait_none_iff, taskGroup_go_units]
  · intro k rs h
    rw [taskGroup_wait_some, taskGroup_go_units]
    rw [taskGroup_go_units]
    exact h
  · intro w p v reg conf bucket folder filters hb hf hfl
    refine ⟨(((reg.filter (orFilter filters)).map
        (uploadUnit w bucket folder conf.acl)).map Prod.snd).foldl
        TaskGroup.go (TaskGroup.new String p), ?_, ?_,
        taskGroup_wait_none_iff String _, taskGroup_wait_some String _⟩
    · simp only [uploadS3, hb, hf, hfl]
    · rw [taskGroup_go_units]
      simp

/-- Witness for C1: the spec's scenario of five units of which units 2
and 4 fail — all five outcomes are retained and Wait aggregates exactly
the two failure messages. -/
theorem C1_witness :
    (rs5.foldl TaskGroup.go (TaskGroup.new String 5)).units = rs5 ∧
    (rs5.foldl TaskGroup.go (TaskGroup.new String 5)).wait =
      some [("unit 2 failed"), ("unit 4 failed")] := by
  refine ⟨C1_wait_reports_all_failures.1 5 rs5, ?_⟩
  exact C1_wait_reports_all_failures.2.2.1 5 rs5 (by decide)

/-- C3: the architecture name translation of alpine.go's Run is the fixed
table sending 386 to x86 and amd64 to x86_64 and passing every other
input through unchanged. -/
theorem C3_translate_arch_table :
    translateArch ("386") = "x86" ∧ translateArch ("amd64") = "x86_64" ∧
    ∀ s : String, s ≠ "386" → s ≠ "amd64" → translateArch s = s := by
  refine ⟨rfl, rfl, ?_⟩
  intro s h1 h2
  simp [translateArch, h1, h2]

/-- Witness for C3: the pass-through branch at the concrete input arm64. -/
theorem C3_witness : translateArch ("arm64") = "arm64" :=
  C3_translate_arch_table.2.2 ("arm64") (by decide) (by decide)

/-- Counterexample to C5: an artifact of kind UploadableBinary with
target OS linux and empty ARM variant is rejected by the selection
predicate of alpine.go's Run, while a kind-Binary artifact passes it; in
a full run over a registry holding both, only the Binary artifact's
architecture is packaged (both registered outputs carry arm64, none
amd64), so the workflow does not select kind uploadable-binary. -/
theorem C5_counterexample :
    exUB.type = ArtifactType.UploadableBinary ∧ exUB.goos = "linux" ∧
    exUB.goarm = "" ∧ alpineFilter exUB = false ∧
    exBin2.type = ArtifactType.Binary ∧ alpineFilter exBin2 = true ∧
    (runAlpine wAllOk ("keys/pkg.pub") ctxC5).1 = PipeResult.ok ∧
    (runAlpine wAllOk ("keys/pkg.pub") ctxC5).2.registered.map Artifact.goarch =
      ["arm64", "arm64"] := by
  decide

/-- C5 (amended): the packaging workflow selects as eligible input
binaries exactly the registered artifacts of kind generic-binary
(artifact.Binary, not uploadable-binary) whose target OS is linux and
whose ARM-variant qualifier is empty. -/
theorem C5_alpine_filter_characterization (a : Artifact) :
    alpineFilter a = true ↔
      (a.goos = "linux" ∧ a.goarm = "" ∧ a.type = ArtifactType.Binary) := by
  simp [alpineFilter, andFilter, ByGoos, ByGoarm, ByType]

/-- C4 (amended): for every target architecture, once the per-binary
steps up to the build tool have succeeded, the built native package (type
APK) is registered immediately — before the signing tool runs — while
the signed index (type APKIndex) is registered only after abuild-sign
succeeds; so when signing fails, the native package is already registered
and only the index is withheld. -/
theorem C4_apk_registered_before_sign (w : AlpineWorld) (env : ConfigEnv)
    (b : Artifact)
    (hmkdir : w.mkdir (goJoin [env.localPath, translateArch b.goarch]) = none)
    (hopen : w.openFile b.path = none)
    (hcreate : w.createFile
      (goJoin [goJoin [env.localPath, translateArch b.goarch], filepathBase b.path]) = none)
    (hcopy : w.copyFile
      (goJoin [goJoin [env.localPath, translateArch b.goarch], filepathBase b.path]) = none)
    (habuild : w.abuild (translateArch b.goarch) = none) :
    (∀ e out,
      w.abuildSign (apkIndexAbsOf env (translateArch b.goarch)) = some (e, out) →
      processArtifact w env b =
        (some (e ++ ":\n" ++ out), [apkArtifactOf env b],
         [buildCmdOf env b, signCmdOf env b])) ∧
    (w.abuildSign (apkIndexAbsOf env (translateArch b.goarch)) = none →
      processArtifact w env b =
        (none, [apkArtifactOf env b, apkIndexArtifactOf env b],
         [buildCmdOf env b, signCmdOf env b])) := by
  constructor
  · intro e out hsign
    simp [processArtifact, hmkdir, hopen, hcreate, hcopy, habuild, hsign]
  · intro hsign
    simp [processArtifact, hmkdir, hopen, hcreate, hcopy, habuild, hsign]

/-- Witness for the amended C4: at the concrete failing-signer world, the
unit returns the formatted signing error having registered exactly the
native package. -/
theorem C4_witness :
    processArtifact wSignFail exEnv exBin =
      (some ("exit status 1:\nsigning failed"), [apkArtifactOf exEnv exBin],
       [buildCmdOf exEnv exBin, signCmdOf exEnv exBin]) :=
  (C4_apk_registered_before_sign wSignFail exEnv exBin rfl rfl rfl rfl rfl).1
    ("exit status 1") ("signing failed") rfl

/-- Counterexample to C4: in a run where the build tool succeeds and the
signing tool fails for the only architecture, Run returns the signing
error, yet the native package (type APK) has already been registered into
the registry — contradicting that neither artifact is registered when
signing fails. -/
theorem C4_counterexample :
    (runAlpine wSignFail ("keys/pkg.pub") exCtx).1 =
      PipeResult.err ("exit status 1:\nsigning failed") ∧
    (runAlpine wSignFail ("keys/pkg.pub") exCtx).2.registered.map Artifact.type =
      [ArtifactType.APK] := by
  decide

/-- C2 (code evidence): at a world where writing the APKBUILD descriptor
fails with a filesystem error, Run does not fail — the source assigns the
WriteFile error to err but overwrites err with the exec.LookPath result
before checking it — and proceeds to spawn abuild and abuild-sign and
return nil; whereas a template rendering failure is propagated before
anything is spawned or registered. -/
theorem C2_descriptor_write_error_ignored :
    (runAlpine wWriteFail ("keys/pkg.pub") exCtx).1 = PipeResult.ok ∧
    (runAlpine wWriteFail ("keys/pkg.pub") exCtx).2.descriptorWrites =
      [(goJoin ["dist", "alpine-foo", "APKBUILD"], some ("read-only file system"))] ∧
    (runAlpine wWriteFail ("keys/pkg.pub") exCtx).2.spawned.map SpawnedCmd.tool =
      ["abuild", "abuild-sign"] ∧
    (runAlpine wRenderFail ("keys/pkg.pub") exCtx).1 =
      PipeResult.err ("template: parse error") ∧
    (runAlpine wRenderFail ("keys/pkg.pub") exCtx).2.spawned = [] ∧
    (runAlpine wRenderFail ("keys/pkg.pub") exCtx).2.registered = [] := by
  decide

/-- C6: when either key path from the environment is missing, the
packaging stage fails with ErrNoAlpineKeys surfaced by the Default step
(run before Run), and no external tool subprocess is ever spawned. -/
theorem C6_missing_keys_no_spawn (w : AlpineWorld) (pub priv : String)
    (ctx : AlpineCtx) (h : pub = "" ∨ priv = "") :
    (alpineStage w pub priv ctx).2.spawned = [] ∧
    (ctx.configs ≠ [] →
      (alpineStage w pub priv ctx).1 = PipeResult.err errNoAlpineKeys) := by
  have hb : (pub = "" || priv = "") = true := by
    rcases h with h | h <;> simp [h]
  cases hctx : ctx.configs with
  | nil =>
    have hd : defaultAlpine pub priv ctx.configs = (none, []) := by
      rw [hctx]
      simp [defaultAlpine]
    refine ⟨?_, fun hne => absurd rfl hne⟩
    simp [alpineStage, hd, runAlpine, emptyTrace]
  | cons c cs =>
    have hd : defaultAlpine pub priv ctx.configs =
        (some errNoAlpineKeys, applyAlpineDefaults c :: cs) := by
      rw [hctx]
      simp [defaultAlpine, hb]
    exact ⟨by simp [alpineStage, hd, emptyTrace],
           fun _ => by simp [alpineStage, hd]⟩

/-- Witness for C6: with an empty public-key path and one configured
spec, the stage spawns nothing and fails with ErrNoAlpineKeys. -/
theorem C6_witness :
    (alpineStage wAllOk ("") ("k") exCtx).2.spawned = [] ∧
    (alpineStage wAllOk ("") ("k") exCtx).1 = PipeResult.err errNoAlpineKeys :=
  ⟨(C6_missing_keys_no_spawn wAllOk ("") ("k") exCtx (Or.inl rfl)).1,
   (C6_missing_keys_no_spawn wAllOk ("") ("k") exCtx (Or.inl rfl)).2 (by decide)⟩

theorem lookupArtifactType_isSome_iff (s : String) :
    (lookupArtifactType s).isSome = true ↔
      s ∈ (["archive", "binary", "nfpm", "checksum", "signature", "apk",
            "apkindex"] : List String) := by
  by_cases h1 : s = "archive"
  · subst h1; decide
  by_cases h2 : s = "binary"
  · subst h2; decide
  by_cases h3 : s = "nfpm"
  · subst h3; decide
  by_cases h4 : s = "checksum"
  · subst h4; decide
  by_cases h5 : s = "signature"
  · subst h5; decide
  by_cases h6 : s = "apk"
  · subst h6; decide
  by_cases h7 : s = "apkindex"
  · subst h7; decide
  have e1 : (("archive" : String) == s) = false := by
    rw [beq_eq_false_iff_ne]; exact fun e => h1 e.symm
  have e2 : (("binary" : String) == s) = false := by
    rw [beq_eq_false_iff_ne]; exact fun e => h2 e.symm
  have e3 : (("nfpm" : String) == s) = false := by
    rw [beq_eq_false_iff_ne]; exact fun e => h3 e.symm
  have e4 : (("checksum" : String) == s) = false := by
    rw [beq_eq_false_iff_ne]; exact fun e => h4 e.symm
  have e5 : (("signature" : String) == s) = false := by
    rw [beq_eq_false_iff_ne]; exact fun e => h5 e.symm
  have e6 : (("apk" : String) == s) = false := by
    rw [beq_eq_false_iff_ne]; exact fun e => h6 e.symm
  have e7 : (("apkindex" : String) == s) = false := by
    rw [beq_eq_false_iff_ne]; exact fun e => h7 e.symm
  have hnone : lookupArtifactType s = none := by
    simp [lookupArtifactType, artifactTypes, List.find?, e1, e2, e3, e4, e5, e6, e7]
  rw [hnone]
  simp [h1, h2, h3, h4, h5, h6, h7]

theorem buildFilters_error (names : List String) (m : String)
    (h : buildFilters names = Except.error m) :
    ∃ s ∈ names, lookupArtifactType s = none ∧
      m = "unknown artifact type: " ++ s := by
  induction names with
  | nil => simp [buildFilters] at h
  | cons s rest ih =>
    simp only [buildFilters] at h
    cases hl : lookupArtifactType s with
    | none =>
      rw [hl] at h
      simp only [Except.error.injEq] at h
      exact ⟨s, List.mem_cons_self s rest, hl, h.symm⟩
    | some t =>
      rw [hl] at h
      cases hr : buildFilters rest with
      | ok fs => rw [hr] at h; simp at h
      | error e =>
        rw [hr] at h
        simp only [Except.error.injEq] at h
        subst h
        rcases ih hr with ⟨s2, hs2, hn, hm⟩
        exact ⟨s2, List.mem_cons_of_mem s hs2, hn, hm⟩

/-- C7: the type filter of s3.go's upload is built from the fixed
vocabulary archive, binary, nfpm, checksum, signature, apk, apkindex —
a name is recognized exactly when it is one of these; a configured name
outside the vocabulary makes the filter construction fail with the
"unknown artifact type" error for that name, and upload for that
destination then returns that error without performing any upload. -/
theorem C7_unknown_artifact_kind :
    (∀ s : String, (lookupArtifactType s).isSome = true ↔
        s ∈ (["archive", "binary", "nfpm", "checksum", "signature", "apk",
              "apkindex"] : List String)) ∧
    (∀ (names : List String) (m : String), buildFilters names = Except.error m →
        ∃ s ∈ names, lookupArtifactType s = none ∧
          m = "unknown artifact type: " ++ s) ∧
    (∀ (w : S3World) (p : Int) (v : String) (reg : List Artifact)
        (conf : S3Config) (bucket folder m : String),
        tmplApply v conf.bucket = Except.ok bucket →
        tmplApply v conf.folder = Except.ok folder →
        buildFilters conf.artifacts = Except.error m →
        uploadS3 w p v reg conf = (some (S3Err.single m), [])) := by
  refine ⟨lookupArtifactType_isSome_iff, buildFilters_error, ?_⟩
  intro w p v reg conf bucket folder m hb hf hfl
  simp [uploadS3, hb, hf, hfl]

/-- Witness for C7: the unrecognized kind name deb makes upload return
the unknown-artifact-type error with no upload performed. -/
theorem C7_witness :
    uploadS3 exS3World 4 ("1.2.3") [exApp] confDeb =
      (some (S3Err.single ("unknown artifact type: deb")), []) :=
  C7_unknown_artifact_kind.2.2 exS3World 4 ("1.2.3") [exApp] confDeb
    ("bkt") ("releases/1.2.3") ("unknown artifact type: deb") rfl rfl rfl

/-- C8: once the destination's bucket, folder and filters resolve, every
upload call performed by upload's fan-out carries the configured ACL and
bucket, and its remote object key is
filepath.Join(resolvedFolder, artifact.RepoDir, artifact.Name). -/
theorem C8_upload_key (w : S3World) (p : Int) (v : String)
    (reg : List Artifact) (conf : S3Config) (bucket folder : String)
    (filters : List (Artifact → Bool))
    (hb : tmplApply v conf.bucket = Except.ok bucket)
    (hf : tmplApply v conf.folder = Except.ok folder)
    (hfl : buildFilters conf.artifacts = Except.ok filters) :
    ∀ call ∈ (uploadS3 w p v reg conf).2,
      call.bucket = bucket ∧ call.acl = conf.acl ∧
      call.key = goJoin [folder, call.art.repoDir, call.art.name] := by
  intro call hc
  simp only [uploadS3, hb, hf, hfl] at hc
  rw [List.mem_filterMap] at hc
  rcases hc with ⟨u, hu, hfst⟩
  rw [List.mem_map] at hu
  rcases hu with ⟨a, _, rfl⟩
  cases ho : w.openFile a.path with
  | some e => simp [uploadUnit, ho] at hfst
  | none =>
    simp only [uploadUnit, ho, Option.some.injEq] at hfst
    subst hfst
    exact ⟨rfl, rfl, rfl⟩

/-- Witness for C8: with folder template releases/ plus the version
placeholder resolved against version 1.2.3 (giving releases/1.2.3), the
artifact app_linux_amd64 with empty repo subpath uploads under exactly
the key releases/1.2.3/app_linux_amd64, which is the join of the
resolved folder, its repo subpath and its name. -/
theorem C8_witness :
    tmplApply ("1.2.3") confRel.folder = Except.ok ("releases/1.2.3") ∧
    (uploadS3 exS3World 4 ("1.2.3") [exApp] confRel).2.map UploadCall.key =
      ["releases/1.2.3/app_linux_amd64"] ∧
    exCallC8.key = goJoin [("releases/1.2.3"), exCallC8.art.repoDir, exCallC8.art.name] := by
  refine ⟨rfl, by decide, ?_⟩
  exact (C8_upload_key exS3World 4 ("1.2.3") [exApp] confRel ("bkt")
    ("releases/1.2.3") [ByType ArtifactType.UploadableBinary] rfl rfl rfl
    exCallC8 (by decide)).2.2

/-- C9: a stage with nothing configured returns the distinguishable
not-configured skip signal (s3's Publish with no S3 section, alpine's
Run with no Alpine section); running a configured destination whose
filter matches zero artifacts is the distinct nominal success with zero
uploads; and the skip signal differs from both the nominal success and
any aggregate error outcome. -/
theorem C9_not_configured_skip :
    (∀ (w : S3World) (p : Int) (v : String) (reg : List Artifact)
        (cp : Option String),
        s3Publish w p v reg [] cp =
          (PipeResult.skip ("s3 section is not configured"), [])) ∧
    (∀ (w : AlpineWorld) (pub d v : String) (reg : List Artifact),
        runAlpine w pub { configs := [], registry := reg, dist := d, version := v } =
          (PipeResult.skip ("alpine section is not configured"), emptyTrace)) ∧
    (∀ (w : S3World) (p : Int) (v : String) (reg : List Artifact)
        (conf : S3Config) (bucket folder : String)
        (filters : List (Artifact → Bool)),
        tmplApply v conf.bucket = Except.ok bucket →
        tmplApply v conf.folder = Except.ok folder →
        buildFilters conf.artifacts = Except.ok filters →
        reg.filter (orFilter filters) = [] →
        s3Publish w p v reg [conf] none = (PipeResult.ok, [])) ∧
    (∀ (ε : Type) (m : String) (e : ε),
        (PipeResult.skip m : PipeResult ε) ≠ PipeResult.ok ∧
        (PipeResult.skip m : PipeResult ε) ≠ PipeResult.err e) := by
  refine ⟨?_, ?_, ?_, ?_⟩
  · intro w p v reg cp
    simp [s3Publish]
  · intro w pub d v reg
    simp [runAlpine]
  · intro w p v reg conf bucket folder filters hb hf hfl hempty
    have hu : uploadS3 w p v reg conf = (none, []) := by
      simp [uploadS3, hb, hf, hfl, hempty, TaskGroup.new, TaskGroup.wait]
    simp [s3Publish, hu, TaskGroup.new, TaskGroup.go, TaskGroup.wait]
  · intro ε m e
    exact ⟨(fun h => nomatch h), (fun h => nomatch h)⟩

/-- Witness for C9: a destination whose binary filter matches nothing in
a registry holding only a generic binary publishes as the nominal
success with zero uploads, while the unconfigured stage skips. -/
theorem C9_witness :
    s3Publish exS3World 4 ("1.2.3") [exBin] [confRel] none = (PipeResult.ok, []) ∧
    s3Publish exS3World 4 ("1.2.3") [exBin] [] none =
      (PipeResult.skip ("s3 section is not configured"), []) :=
  And.intro
    (C9_not_configured_skip.2.2.1 exS3World 4 ("1.2.3") [exBin] confRel ("bkt")
      ("releases/1.2.3") [ByType ArtifactType.UploadableBinary] rfl rfl rfl
      (by decide))
    (C9_not_configured_skip.1 exS3World 4 ("1.2.3") [exBin] none)

theorem processArtifact_registered (w : AlpineWorld) (env : ConfigEnv)
    (b : Artifact) :
    ∀ a ∈ (processArtifact w env b).2.1,
      (a.type = ArtifactType.APK ∨ a.type = ArtifactType.APKIndex) ∧
      a.goos = "linux" ∧ a.goarm = "" ∧ a.goarch = b.goarch ∧
      a.extra = [("AlpineArch", translateArch b.goarch)] ∧
      a.repoDir = goJoin [env.repoPath, translateArch b.goarch] := by
  intro a ha
  cases hm : w.mkdir (goJoin [env.localPath, translateArch b.goarch]) with
  | some e => simp [processArtifact, hm] at ha
  | none =>
  cases ho : w.openFile b.path with
  | some e => simp [processArtifact, hm, ho] at ha
  | none =>
  cases hc : w.createFile
      (goJoin [goJoin [env.localPath, translateArch b.goarch], filepathBase b.path]) with
  | some e => simp [processArtifact, hm, ho, hc] at ha
  | none =>
  cases hcp : w.copyFile
      (goJoin [goJoin [env.localPath, translateArch b.goarch], filepathBase b.path]) with
  | some e => simp [processArtifact, hm, ho, hc, hcp] at ha
  | none =>
  cases hab : w.abuild (translateArch b.goarch) with
  | some pr => simp [processArtifact, hm, ho, hc, hcp, hab] at ha
  | none =>
  cases hs : w.abuildSign (apkIndexAbsOf env (translateArch b.goarch)) with
  | some pr =>
    simp [processArtifact, hm, ho, hc, hcp, hab, hs] at ha
    subst ha
    exact ⟨Or.inl rfl, rfl, rfl, rfl, rfl, rfl⟩
  | none =>
    simp [processArtifact, hm, ho, hc, hcp, hab, hs] at ha
    rcases ha with ha | ha
    · subst ha
      exact ⟨Or.inl rfl, rfl, rfl, rfl, rfl, rfl⟩
    · subst ha
      exact ⟨Or.inr rfl, rfl, rfl, rfl, rfl, rfl⟩

theorem processArtifacts_registered (w : AlpineWorld) (env : ConfigEnv) :
    ∀ (bs : List Artifact), ∀ a ∈ (processArtifacts w env bs).2.1,
      ∃ b ∈ bs,
        (a.type = ArtifactType.APK ∨ a.type = ArtifactType.APKIndex) ∧
        a.goos = "linux" ∧ a.goarm = "" ∧ a.goarch = b.goarch ∧
        a.extra = [("AlpineArch", translateArch b.goarch)] ∧
        a.repoDir = goJoin [env.repoPath, translateArch b.goarch] := by
  intro bs
  induction bs with
  | nil => intro a ha; simp [processArtifacts] at ha
  | cons b bs ih =>
    intro a ha
    simp only [processArtifacts] at ha
    rcases hpa : processArtifact w env b with ⟨err, arts, cmds⟩
    rw [hpa] at ha
    cases err with
    | some e =>
      simp only at ha
      have hmem : a ∈ (processArtifact w env b).2.1 := by
        rw [hpa]; exact ha
      exact ⟨b, List.mem_cons_self b bs, processArtifact_registered w env b a hmem⟩
    | none =>
      simp only at ha
      rcases List.mem_append.mp ha with ha | ha
      · have hmem : a ∈ (processArtifact w env b).2.1 := by
          rw [hpa]; exact ha
        exact ⟨b, List.mem_cons_self b bs, processArtifact_registered w env b a hmem⟩
      · rcases ih a ha with ⟨b2, hb2, props⟩
        exact ⟨b2, List.mem_cons_of_mem b hb2, props⟩

theorem alpineFilter_eligible_type (b : Artifact)
    (h : alpineFilter b = true) : b.type = ArtifactType.Binary := by
  simp [alpineFilter, andFilter, ByGoos, ByGoarm, ByType] at h
  exact h.2.2

theorem processConfig_registered (w : AlpineWorld) (d v pub : String)
    (reg : List Artifact) (cfg : AlpineConfig) :
    ∀ a ∈ (processConfig w d v pub reg cfg).2.registered,
      (a.type = ArtifactType.APK ∨ a.type = ArtifactType.APKIndex) ∧
      a.goos = "linux" ∧ a.goarm = "" ∧
      ∃ b ∈ reg, alpineFilter b = true ∧ a.goarch = b.goarch ∧
        a.extra = [("AlpineArch", translateArch b.goarch)] ∧
        a.repoDir = goJoin [alpineRepoPath cfg, translateArch b.goarch] := by
  intro a ha
  cases hg : w.getwd with
  | error e => simp [processConfig, hg, emptyTrace] at ha
  | ok pwd =>
  cases hmk : w.mkdirAll (goJoin [d, "alpine-" ++ cfg.name]) with
  | some e => simp [processConfig, hg, hmk, emptyTrace] at ha
  | none =>
  cases hr : w.render cfg with
  | error e => simp [processConfig, hg, hmk, hr, emptyTrace] at ha
  | ok u =>
  cases hl : w.lookPathAbuild with
  | some e => simp [processConfig, hg, hmk, hr, hl, emptyTrace] at ha
  | none =>
    simp only [processConfig, hg, hmk, hr, hl] at ha
    rcases processArtifacts_registered w _ (reg.filter alpineFilter) a ha with
      ⟨b, hbmem, hty, hos, harm, harch, hextra, hrepo⟩
    exact ⟨hty, hos, harm, b, (List.mem_filter.mp hbmem).1,
      (List.mem_filter.mp hbmem).2, harch, hextra, hrepo⟩

theorem runAlpineConfigs_registered (w : AlpineWorld) (d v pub : String) :
    ∀ (cfgs : List AlpineConfig) (reg : List Artifact) (a : Artifact),
      a ∈ (runAlpineConfigs w d v pub reg cfgs).2.registered →
      ∃ cfg ∈ cfgs, ∃ b ∈ reg,
        alpineFilter b = true ∧
        (a.type = ArtifactType.APK ∨ a.type = ArtifactType.APKIndex) ∧
        a.goos = "linux" ∧ a.goarm = "" ∧ a.goarch = b.goarch ∧
        a.extra = [("AlpineArch", translateArch b.goarch)] ∧
        a.repoDir = goJoin [alpineRepoPath cfg, translateArch b.goarch] := by
  intro cfgs
  induction cfgs with
  | nil => intro reg a ha; simp [runAlpineConfigs, emptyTrace] at ha
  | cons cfg cfgs ih =>
    intro reg a ha
    simp only [runAlpineConfigs] at ha
    rcases hpc : processConfig w d v pub reg cfg with ⟨err, tr⟩
    rw [hpc] at ha
    cases err with
    | some e =>
      simp only at ha
      have hmem : a ∈ (processConfig w d v pub reg cfg).2.registered := by
        rw [hpc]; exact ha
      rcases processConfig_registered w d v pub reg cfg a hmem with
        ⟨hty, hos, harm, b, hb, hfil, harch, hextra, hrepo⟩
      exact ⟨cfg, List.mem_cons_self cfg cfgs, b, hb, hfil, hty, hos, harm,
        harch, hextra, hrepo⟩
    | none =>
      simp only [AlpineTrace.append] at ha
      rcases List.mem_append.mp ha with ha | ha
      · have hmem : a ∈ (processConfig w d v pub reg cfg).2.registered := by
          rw [hpc]; exact ha
        rcases processConfig_registered w d v pub reg cfg a hmem with
          ⟨hty, hos, harm, b, hb, hfil, harch, hextra, hrepo⟩
        exact ⟨cfg, List.mem_cons_self cfg cfgs, b, hb, hfil, hty, hos, harm,
          harch, hextra, hrepo⟩
      · rcases ih (reg ++ tr.registered) a ha with
          ⟨cfg2, hc2, b, hbmem, hfil, props⟩
        have hbreg : b ∈ reg := by
          rcases List.mem_append.mp hbmem with hrg | hrg
          · exact hrg
          · exfalso
            have hmem2 : b ∈ (processConfig w d v pub reg cfg).2.registered := by
              rw [hpc]; exact hrg
            have hbt := alpineFilter_eligible_type b hfil
            rcases (processConfig_registered w d v pub reg cfg b hmem2).1 with h2 | h2 <;>
              rw [h2] at hbt <;> exact absurd hbt (by decide)
        exact ⟨cfg2, List.mem_cons_of_mem cfg hc2, b, hbreg, hfil, props⟩

/-- C10: every artifact the packaging workflow registers (native package
or index) stems from a source binary b that is an actual member of the
run's input registry and passes the eligibility filter; the registered
artifact's Goarch is b's untranslated canonical Goarch, its platform OS
is linux with empty ARM variant, and the translated native architecture
name translateArch b.goarch appears in the AlpineArch extra entry and as
the final join segment of the repository subpath built from the owning
spec's root/branch/repository. -/
theorem C10_registered_artifact_fields (w : AlpineWorld) (pub : String)
    (ctx : AlpineCtx) :
    ∀ a ∈ (runAlpine w pub ctx).2.registered,
      ∃ cfg ∈ ctx.configs, ∃ b ∈ ctx.registry,
        alpineFilter b = true ∧
        (a.type = ArtifactType.APK ∨ a.type = ArtifactType.APKIndex) ∧
        a.goos = "linux" ∧ a.goarm = "" ∧ a.goarch = b.goarch ∧
        a.extra = [("AlpineArch", translateArch b.goarch)] ∧
        a.repoDir = goJoin [alpineRepoPath cfg, translateArch b.goarch] := by
  intro a ha
  cases hce : ctx.configs.isEmpty with
  | true => simp [runAlpine, hce, emptyTrace] at ha
  | false =>
    simp only [runAlpine, hce] at ha
    rcases hrc : runAlpineConfigs w ctx.dist ctx.version pub ctx.registry
        ctx.configs with ⟨err, tr⟩
    rw [hrc] at ha
    have hmem : a ∈ (runAlpineConfigs w ctx.dist ctx.version pub ctx.registry
        ctx.configs).2.registered := by
      rw [hrc]
      cases err with
      | some e => exact ha
      | none => exact ha
    exact runAlpineConfigs_registered w ctx.dist ctx.version pub ctx.configs
      ctx.registry a hmem

/-- Witness for C10: the native-package artifact registered by the wAllOk
run of exCtx stems from the registry's amd64 binary exBin — its Goarch is
the untranslated amd64, not x86_64, while the translated x86_64 sits in
the AlpineArch extra entry and ends the repository subpath. -/
theorem C10_witness :
    exApkOut.goarch = exBin.goarch ∧ exApkOut.goarch = "amd64" ∧
    exApkOut.extra = [("AlpineArch", "x86_64")] ∧
    exApkOut.repoDir = goJoin [alpineRepoPath exCfg, "x86_64"] ∧
    exApkOut.goos = "linux" ∧ exApkOut.goarm = "" ∧
    exApkOut.type = ArtifactType.APK := by
  rcases C10_registered_artifact_fields wAllOk ("keys/pkg.pub") exCtx exApkOut
      (by decide) with ⟨cfg, hcfg, b, hb, hfil, hty, hos, harm, harch, hextra, hrepo⟩
  have hc : cfg = exCfg := by simpa [exCtx] using hcfg
  have hbe : b = exBin := by simpa [exCtx] using hb
  subst hc
  subst hbe
  refine ⟨harch, ?_, ?_, ?_, hos, harm, by decide⟩
  · rw [harch]; decide
  · rw [hextra]; decide
  · rw [hrepo]; decide
